import Mathlib

/-!
Verification of the secure-fileload service (Express app in `netlify/functions/api.js`)
against its natural-language specification.

The embedding models:
* the JWT login-token codec (the `jsonwebtoken` library is an external collaborator,
  modelled from the spec, section 4.1),
* the one-time redemption ledger `usedJtis` and `verifyOnce`,
* the `/api/callback`, `/api/request-access`, `/api/upload`, `/api/download`,
  `/api/delete` handlers and the `requireAuth` middleware,
* `sanitizePath` and `encodeURIComponent`-based per-user path namespacing.

Stateful code is embedded by explicit state passing (the ledger is a `List String`
of consumed token ids); fallible code returns `Except`.
-/

deriving instance DecidableEq for Except

namespace SecureFileload

/-- JWT payload as produced by `jwt.sign({sub: email}, secret, {expiresIn, jwtid})`:
fields `sub`, `jti`, `iat`, `exp`. -/
structure JwtPayload where
  sub : String
  jti : String
  iat : Nat
  exp : Nat
deriving DecidableEq, Repr

/-- Modelled from the spec: the `jsonwebtoken` library is not part of the repository
source; the spec (section 4.1, Token Codec) requires a signature that binds `subject`,
`tokenId` and `expiresAt` such that any alteration invalidates it.  The HMAC is
modelled as an injective tagging of the payload with the secret: two MACs agree
exactly when secret and payload agree. -/
def jwtMac (secret : String) (p : JwtPayload) : String :=
  secret ++ "|" ++ p.sub ++ "|" ++ p.jti ++ "|" ++ toString p.iat ++ "|" ++ toString p.exp

/-- A signed token string, i.e. the wire form of a login token: a payload plus its MAC. -/
structure SignedToken where
  payload : JwtPayload
  sig : String
deriving DecidableEq, Repr

/-- Errors of the token codec (spec section 4.1): `InvalidSignature`, `Expired`. -/
inductive JwtError where
  | invalidSignature
  | expired
deriving DecidableEq, Repr

/-- Modelled from the spec: `jwt.sign` — produce the signed encoding of
`{subject, tokenId, expiresAt = now + ttl}`. -/
def jwtSign (secret sub jti : String) (now ttl : Nat) : SignedToken :=
  let p : JwtPayload := ⟨sub, jti, now, now + ttl⟩
  ⟨p, jwtMac secret p⟩

/-- Modelled from the spec: `jwt.verify` — fails with `InvalidSignature` if the
integrity check does not pass, fails with `Expired` if `now > expiresAt`;
does not consult the ledger. -/
def jwtVerify (secret : String) (t : SignedToken) (now : Nat) : Except JwtError JwtPayload :=
  if t.sig = jwtMac secret t.payload then
    if now > t.payload.exp then .error .expired
    else .ok t.payload
  else .error .invalidSignature

/-- `TOKEN_TTL_SECONDS` default from the source environment block: 900 seconds. -/
def tokenTtl : Nat := 900

/-- `signLoginToken(email)` from the source: `jwt.sign({sub: email}, JWT_SECRET,
{expiresIn: tokenTtl, jwtid: jti})` where `jti = nanoid()`.  The fresh random id
produced by `nanoid` is passed in as the `jti` argument. -/
def signLoginToken (secret email jti : String) (now : Nat) : SignedToken :=
  jwtSign secret email jti now tokenTtl

/-- Error taxonomy of `verifyOnce`: the two codec failures plus "Token already used". -/
inductive AuthError where
  | invalidSignature
  | expired
  | alreadyUsed
deriving DecidableEq, Repr

/-- `verifyOnce(token)` from the source: `jwt.verify`, then the `usedJtis` replay check
(`if (usedJtis.has(payload.jti)) throw`), then `usedJtis.add(payload.jti)` and
return `payload.sub`.  The ledger is passed and returned explicitly. -/
def verifyOnce (secret : String) (t : SignedToken) (now : Nat) (usedJtis : List String) :
    Except AuthError (String × List String) :=
  match jwtVerify secret t now with
  | .error .invalidSignature => .error .invalidSignature
  | .error .expired => .error .expired
  | .ok p =>
    if p.jti ∈ usedJtis then .error .alreadyUsed
    else .ok (p.sub, p.jti :: usedJtis)

/-- Result of one `/api/callback` request: HTTP status, response body, the `auth`
cookie set (if any), and the ledger afterwards. -/
structure CallbackResult where
  status : Nat
  body : String
  authCookie : Option String
  usedJtis : List String
deriving DecidableEq, Repr

/-- The `/api/callback` handler from the source: missing `token` query gives
400 "Missing token"; a `verifyOnce` failure is caught and gives
400 "Invalid or expired token" with no cookie set; success sets the `auth`
cookie to the verified email. -/
def callback (secret : String) (tok? : Option SignedToken) (now : Nat)
    (used : List String) : CallbackResult :=
  match tok? with
  | none => ⟨400, "Missing token", none, used⟩
  | some t =>
    match verifyOnce secret t now used with
    | .ok (email, used') =>
        ⟨200, "Signed in! You can close this tab and return to the app.", some email, used'⟩
    | .error _ => ⟨400, "Invalid or expired token", none, used⟩

/-- `requireAuth` from the source: `const email = req.cookies?.auth; if (!email) 401`.
An absent cookie or the empty string (both falsy) are rejected; any other string is
accepted as the authenticated email. -/
def requireAuth (authCookie : Option String) : Except Nat String :=
  match authCookie with
  | none => .error 401
  | some e => if e = "" then .error 401 else .ok e

/-- Does a character list start with two consecutive dots? -/
def startsDD : List Char → Bool
  | '.' :: '.' :: _ => true
  | _ => false

/-- `p.includes("..")` from `sanitizePath`: does the list contain two consecutive dots
anywhere? -/
def hasDD : List Char → Bool
  | [] => false
  | c :: rest => startsDD (c :: rest) || hasDD rest

/-- `sanitizePath(p)` from the source: throws "Invalid path" when `p` is falsy (absent
or empty) or contains `".."`; otherwise strips leading slashes
(`p.replace(/^\/+/, "")`). -/
def sanitizePath (p? : Option String) : Except String String :=
  match p? with
  | none => .error "Invalid path"
  | some p =>
    if p.toList.isEmpty || hasDD p.toList then .error "Invalid path"
    else .ok (String.mk (p.toList.dropWhile (· = '/')))

/-- The characters JavaScript `encodeURIComponent` leaves unescaped:
`A-Z a-z 0-9 - _ . ! ~ * ' ( )`. -/
def isUriUnreserved (c : Char) : Bool :=
  c.isAlpha || c.isDigit ||
    (c ∈ ['-', '_', '.', '!', '~', '*', Char.ofNat 39, '(', ')'])

/-- Uppercase hex digit of a value below 16. -/
def hexDigit (n : Nat) : Char :=
  if n < 10 then Char.ofNat (48 + n) else Char.ofNat (55 + n)

/-- UTF-8 byte sequence of a character (standard 1–4 byte encoding). -/
def utf8Bytes (c : Char) : List Nat :=
  let n := c.toNat
  if n < 0x80 then [n]
  else if n < 0x800 then [0xC0 + n / 0x40, 0x80 + n % 0x40]
  else if n < 0x10000 then
    [0xE0 + n / 0x1000, 0x80 + (n / 0x40) % 0x40, 0x80 + n % 0x40]
  else
    [0xF0 + n / 0x40000, 0x80 + (n / 0x1000) % 0x40, 0x80 + (n / 0x40) % 0x40,
      0x80 + n % 0x40]

/-- Percent-escape of one byte, e.g. `%40` for `@`. -/
def pctByte (b : Nat) : String :=
  "%" ++ String.mk [hexDigit (b / 16), hexDigit (b % 16)]

/-- JavaScript `encodeURIComponent`, used by the source to derive the per-user
folder name from the email address. -/
def encodeURIComponent (s : String) : String :=
  String.join (s.toList.map fun c =>
    if isUriUnreserved c then String.mk [c]
    else String.join ((utf8Bytes c).map pctByte))

/-- `` `${STORAGE_ROOT}/${encodeURIComponent(req.user)}/` `` — the per-subject prefix
used by the download and delete handlers. -/
def userNamespace (user : String) : String :=
  "uploads/" ++ encodeURIComponent user ++ "/"

/-- `path.startsWith(prefix)` in JavaScript, embedded via character lists. -/
def strStartsWith (s pre : String) : Bool :=
  pre.toList.isPrefixOf s.toList

/-- An HTTP response: status code and body. -/
structure ApiResponse where
  status : Nat
  body : String
deriving DecidableEq, Repr

/-- The `/api/download` handler body for an authenticated `user` (after
`requireAuth`): `sanitizePath` (its throw is caught and surfaces as
404 "File not found"), then the namespace prefix check (403 "Forbidden"),
then the storage read (a miss is also caught as 404). -/
def download (user : String) (rawPath : Option String)
    (storage : String → Option String) : ApiResponse :=
  match sanitizePath rawPath with
  | .error _ => ⟨404, "File not found"⟩
  | .ok path =>
    if strStartsWith path (userNamespace user) then
      match storage path with
      | some content => ⟨200, content⟩
      | none => ⟨404, "File not found"⟩
    else ⟨403, "Forbidden"⟩

/-- The `/api/delete` handler body for an authenticated `user`: same sanitize and
prefix gates as download; a missing file or a `sanitizePath` throw surfaces as
404 "File not found". -/
def deleteFile (user : String) (rawPath : Option String)
    (storage : String → Option String) : ApiResponse :=
  match sanitizePath rawPath with
  | .error _ => ⟨404, "File not found"⟩
  | .ok path =>
    if strStartsWith path (userNamespace user) then
      match storage path with
      | some _ => ⟨200, "ok"⟩
      | none => ⟨404, "File not found"⟩
    else ⟨403, "Forbidden"⟩

/-- `` `${userFolder}/${timestamp}-${req.file.originalname}` `` — the storage path the
upload handler hands to `ghCreateOrUpdate` and returns to the client.  The
client-supplied `originalname` is embedded verbatim. -/
def uploadPath (user name : String) (ts : Nat) : String :=
  "uploads/" ++ encodeURIComponent user ++ "/" ++ toString ts ++ "-" ++ name

/-- Result of one `/api/upload` request: HTTP status and the path handed to the
storage collaborator (and echoed back to the client), when any. -/
structure UploadOutcome where
  status : Nat
  storedPath : Option String
deriving DecidableEq, Repr

/-- The `/api/upload` handler body for an authenticated `user`: 400 when no file was
supplied, otherwise write `uploadPath` to storage and return it.  `file?` is the
client-supplied original file name; the handler applies no sanitization to it. -/
def upload (user : String) (file? : Option String) (ts : Nat) : UploadOutcome :=
  match file? with
  | none => ⟨400, none⟩
  | some name => ⟨200, some (uploadPath user name ts)⟩

/-- Split a character list at slashes into path segments. -/
def splitSlashAux : List Char → List Char → List (List Char)
  | cur, [] => [cur.reverse]
  | cur, c :: rest =>
    if c = '/' then cur.reverse :: splitSlashAux [] rest
    else splitSlashAux (c :: cur) rest

/-- Path segments of a string. -/
def splitSlash (p : String) : List (List Char) :=
  splitSlashAux [] p.toList

/-- Lexical resolution of `"."` and `".."` segments against a stack (the accumulator
holds the resolved segments in reverse); a `".."` at the root is dropped, as a
server-side resolver clamps at the storage root. -/
def normSegs : List (List Char) → List (List Char) → List (List Char)
  | acc, [] => acc.reverse
  | acc, s :: rest =>
    if s = ['.', '.'] then normSegs (acc.drop 1) rest
    else if s = ['.'] || s = [] then normSegs acc rest
    else normSegs (s :: acc) rest

/-- Join path segments with slashes. -/
def joinSlash : List (List Char) → List Char
  | [] => []
  | [x] => x
  | x :: rest => x ++ '/' :: joinSlash rest

/-- Lexically normalized form of a path: `"."`, `".."` and empty segments resolved.
The storage collaborator addresses objects by this resolved form, so a path is in a
subject's namespace exactly when its normalization extends the subject's prefix. -/
def normalizePath (p : String) : String :=
  String.mk (joinSlash (normSegs [] (splitSlash p)))

/-- Split a character list at a separator character. -/
def splitOnCharAux (sep : Char) : List Char → List Char → List (List Char)
  | cur, [] => [cur.reverse]
  | cur, c :: rest =>
    if c = sep then cur.reverse :: splitOnCharAux sep [] rest
    else splitOnCharAux sep (c :: cur) rest

/-- All chunks of a character list between occurrences of `sep`. -/
def splitOnChar (sep : Char) (l : List Char) : List (List Char) :=
  splitOnCharAux sep [] l

/-- JavaScript `\s` whitespace class (ASCII part). -/
def isJsSpace (c : Char) : Bool :=
  c = ' ' || c = '\t' || c = '\n' || c = '\r' || c = Char.ofNat 11 || c = Char.ofNat 12

/-- A character allowed by the `[^\s@]` class of the email regex. -/
def emailChar (c : Char) : Bool :=
  !isJsSpace c && c ≠ '@'

/-- Does the domain part contain a dot at an internal position (nonempty on both
sides), as `[^\s@]+\.[^\s@]+` requires? -/
def hasInternalDot (d : List Char) : Bool :=
  ((d.drop 1).dropLast).contains '.'

/-- The email check of `/api/request-access`:
`/^[^\s@]+@[^\s@]+\.[^\s@]+$/.test(email)` — exactly one `@`, a nonempty local part
of non-whitespace characters, and a domain of non-whitespace characters containing
an internal dot. -/
def emailRegexOk (s : String) : Bool :=
  match splitOnChar '@' s.toList with
  | [l, d] => !l.isEmpty && l.all emailChar && d.all emailChar && hasInternalDot d
  | _ => false

/-- Result of one `/api/request-access` call: HTTP status and the mail-delivery
calls attempted, each a recipient together with the login token embedded in the
callback link. -/
structure RequestAccessResult where
  status : Nat
  mails : List (String × SignedToken)
deriving DecidableEq, Repr

/-- The `/api/request-access` handler from the source: a missing body or an email
failing the regex check gives 400 "Valid email required" with no mail sent;
otherwise `signLoginToken` is called and the link mailed (a delivery failure is
caught as 500 after the attempt). -/
def requestAccess (secret : String) (body : Option String) (jti : String) (now : Nat)
    (mailOk : Bool) : RequestAccessResult :=
  match body with
  | none => ⟨400, []⟩
  | some email =>
    if emailRegexOk email then
      let t := signLoginToken secret email jti now
      if mailOk then ⟨200, [(email, t)]⟩ else ⟨500, [(email, t)]⟩
    else ⟨400, []⟩

/-- One operation touching the process state: issuing a link via
`/api/request-access`, or redeeming one via `/api/callback`. -/
inductive SysOp where
  | issue (body : Option String) (jti : String) (now : Nat) (mailOk : Bool)
  | redeem (tok? : Option SignedToken) (now : Nat)

/-- Effect of one operation on the `usedJtis` ledger.  The request-access handler's
source never references `usedJtis`, so issuing leaves the ledger as is; redemption
evolves it through `callback`. -/
def sysStep (secret : String) (used : List String) : SysOp → List String
  | .issue .. => used
  | .redeem tok? now => (callback secret tok? now used).usedJtis

/-- Number of redemption attempts for the token string `t` that succeed (set a
session cookie), over a sequence of callback requests executed in order against
the evolving ledger. -/
def countSucc (secret : String) (t : SignedToken) :
    List (Option SignedToken × Nat) → List String → Nat
  | [], _ => 0
  | (tok?, now) :: rest, used =>
    let r := callback secret tok? now used
    (if tok? = some t ∧ r.authCookie.isSome then 1 else 0) +
      countSucc secret t rest r.usedJtis

/-! ### Helper lemmas -/

/-- Unfolding a successful `verifyOnce`: the signature checked out, the token was not
expired, its id was not in the ledger, the returned subject is the payload's, and
the ledger gained exactly that id. -/
theorem verifyOnce_ok_elim {secret : String} {t : SignedToken} {now : Nat}
    {used : List String} {s : String} {u' : List String}
    (h : verifyOnce secret t now used = .ok (s, u')) :
    t.sig = jwtMac secret t.payload ∧ now ≤ t.payload.exp ∧ t.payload.jti ∉ used ∧
    s = t.payload.sub ∧ u' = t.payload.jti :: used := by
  unfold verifyOnce jwtVerify at h
  by_cases hs : t.sig = jwtMac secret t.payload
  · by_cases he : now > t.payload.exp
    · simp [hs, he] at h
    · by_cases hj : t.payload.jti ∈ used
      · simp [hs, he, hj] at h
      · simp [hs, he, hj] at h
        exact ⟨hs, Nat.le_of_not_lt he, hj, h.1.symm, h.2.symm⟩
  · simp [hs] at h

/-- A failing `verifyOnce` makes the callback answer 400 "Invalid or expired token",
set no cookie, and leave the ledger unchanged. -/
theorem callback_of_error {secret : String} {t : SignedToken} {now : Nat}
    {used : List String} {e : AuthError}
    (h : verifyOnce secret t now used = .error e) :
    callback secret (some t) now used = ⟨400, "Invalid or expired token", none, used⟩ := by
  simp [callback, h]

/-- A successful `verifyOnce` makes the callback answer 200 and set the cookie. -/
theorem callback_of_ok {secret : String} {t : SignedToken} {now : Nat}
    {used : List String} {s : String} {u' : List String}
    (h : verifyOnce secret t now used = .ok (s, u')) :
    callback secret (some t) now used =
      ⟨200, "Signed in! You can close this tab and return to the app.", some s, u'⟩ := by
  simp [callback, h]

/-- Once a token's id is in the ledger, `verifyOnce` on that token fails (with
`expired` or `alreadyUsed`), at any time. -/
theorem verifyOnce_replay {secret : String} {t : SignedToken} (now : Nat)
    {used : List String} (hmem : t.payload.jti ∈ used) :
    ∃ e, verifyOnce secret t now used = .error e := by
  unfold verifyOnce jwtVerify
  by_cases hs : t.sig = jwtMac secret t.payload
  · by_cases he : now > t.payload.exp
    · exact ⟨.expired, by simp [hs, he]⟩
    · exact ⟨.alreadyUsed, by simp [hs, he, hmem]⟩
  · exact ⟨.invalidSignature, by simp [hs]⟩

/-- The callback never removes an id from the ledger. -/
theorem callback_ledger_mono {secret : String} {tok? : Option SignedToken} {now : Nat}
    {used : List String} {j : String} (hj : j ∈ used) :
    j ∈ (callback secret tok? now used).usedJtis := by
  match tok? with
  | none => exact hj
  | some t =>
    cases hv : verifyOnce secret t now used with
    | error e => rw [callback_of_error hv]; exact hj
    | ok r =>
      obtain ⟨s, u'⟩ := r
      rw [callback_of_ok hv]
      have := (verifyOnce_ok_elim hv).2.2.2.2
      subst this
      exact List.mem_cons_of_mem _ hj

/-- A callback on a token whose id is already in the ledger does not succeed. -/
theorem callback_replay_no_cookie {secret : String} {t : SignedToken} {now : Nat}
    {used : List String} (hmem : t.payload.jti ∈ used) :
    (callback secret (some t) now used).authCookie = none := by
  obtain ⟨e, he⟩ := @verifyOnce_replay secret t now used hmem
  rw [callback_of_error he]

/-- After the token's id entered the ledger, no later attempt in a run of callback
requests redeems that token again. -/
theorem countSucc_zero (secret : String) (t : SignedToken)
    (atts : List (Option SignedToken × Nat)) :
    ∀ used, t.payload.jti ∈ used → countSucc secret t atts used = 0 := by
  induction atts with
  | nil => intro used _; rfl
  | cons att rest ih =>
    intro used hmem
    obtain ⟨tok?, now⟩ := att
    show (if tok? = some t ∧ (callback secret tok? now used).authCookie.isSome = true
        then 1 else 0) + countSucc secret t rest (callback secret tok? now used).usedJtis = 0
    have hz : (if tok? = some t ∧ (callback secret tok? now used).authCookie.isSome = true
        then 1 else 0) = 0 := by
      by_cases hc : tok? = some t
      · subst hc
        simp [callback_replay_no_cookie hmem]
      · simp [hc]
    rw [hz, ih _ (callback_ledger_mono hmem)]

/-- In any run of callback requests, at most one attempt with a given signed token
string succeeds. -/
theorem countSucc_le_one (secret : String) (t : SignedToken)
    (atts : List (Option SignedToken × Nat)) :
    ∀ used, countSucc secret t atts used ≤ 1 := by
  induction atts with
  | nil => intro used; exact Nat.zero_le 1
  | cons att rest ih =>
    intro used
    obtain ⟨tok?, now⟩ := att
    show (if tok? = some t ∧ (callback secret tok? now used).authCookie.isSome = true
        then 1 else 0) + countSucc secret t rest (callback secret tok? now used).usedJtis ≤ 1
    by_cases hc : tok? = some t ∧ (callback secret tok? now used).authCookie.isSome = true
    · obtain ⟨hc1, hc2⟩ := hc
      subst hc1
      cases hv : verifyOnce secret t now used with
      | error e => rw [callback_of_error hv] at hc2; simp at hc2
      | ok r =>
        obtain ⟨s, u'⟩ := r
        have hu' := (verifyOnce_ok_elim hv).2.2.2.2
        have hmem : t.payload.jti ∈ (callback secret (some t) now used).usedJtis := by
          rw [callback_of_ok hv, hu']
          exact List.mem_cons_self _ _
        rw [countSucc_zero secret t rest _ hmem]
        simp [hc2]
    · rw [if_neg hc]
      simpa using ih (callback secret tok? now used).usedJtis

/-- Character list of a string concatenation. -/
theorem toList_append (s t : String) : (s ++ t).toList = s.toList ++ t.toList := by
  cases s; cases t; rfl

/-- A two-dot run survives prepending characters. -/
theorem hasDD_append (l₁ : List Char) {l₂ : List Char} (h : hasDD l₂ = true) :
    hasDD (l₁ ++ l₂) = true := by
  induction l₁ with
  | nil => exact h
  | cons c rest ih => simp [List.cons_append, hasDD, ih]

/-! ### Claim theorems -/

/-- Claim C1: redeeming a signed login token string twice in sequence has the first
callback succeed (200, session cookie bound to the token's subject) and the second
fail with 400 setting no session cookie; and over any run of callback requests,
at most one attempt with a given signed token string ever succeeds. -/
theorem redeem_twice_single_use (secret : String) (t : SignedToken) (now now2 : Nat)
    (used : List String) (sub : String) (used' : List String)
    (h : verifyOnce secret t now used = .ok (sub, used')) :
    (callback secret (some t) now used).status = 200 ∧
    (callback secret (some t) now used).authCookie = some sub ∧
    (callback secret (some t) now used).usedJtis = used' ∧
    (callback secret (some t) now2 used').status = 400 ∧
    (callback secret (some t) now2 used').body = "Invalid or expired token" ∧
    (callback secret (some t) now2 used').authCookie = none ∧
    ∀ atts u0, countSucc secret t atts u0 ≤ 1 := by
  obtain ⟨hs, he, hj, hsub, hu'⟩ := verifyOnce_ok_elim h
  have hmem : t.payload.jti ∈ used' := by rw [hu']; exact List.mem_cons_self _ _
  obtain ⟨e2, he2⟩ := @verifyOnce_replay secret t now2 used' hmem
  rw [callback_of_ok h, callback_of_error he2]
  exact ⟨rfl, rfl, rfl, rfl, rfl, rfl, fun atts u0 => countSucc_le_one secret t atts u0⟩

/-- Witness for C1 at a concrete token: issue for `a@x.com`, redeem at time 0
(succeeds), redeem again at time 1 (400, no cookie); a two-attempt run yields at
most one success. -/
theorem redeem_twice_single_use_witness :
    verifyOnce "k" (signLoginToken "k" "a@x.com" "j1" 0) 0 [] = .ok ("a@x.com", ["j1"]) ∧
    (callback "k" (some (signLoginToken "k" "a@x.com" "j1" 0)) 0 []).status = 200 ∧
    (callback "k" (some (signLoginToken "k" "a@x.com" "j1" 0)) 0 []).authCookie
      = some "a@x.com" ∧
    (callback "k" (some (signLoginToken "k" "a@x.com" "j1" 0)) 1 ["j1"]).status = 400 ∧
    (callback "k" (some (signLoginToken "k" "a@x.com" "j1" 0)) 1 ["j1"]).authCookie = none ∧
    countSucc "k" (signLoginToken "k" "a@x.com" "j1" 0)
      [(some (signLoginToken "k" "a@x.com" "j1" 0), 0),
       (some (signLoginToken "k" "a@x.com" "j1" 0), 1)] [] ≤ 1 := by
  have h : verifyOnce "k" (signLoginToken "k" "a@x.com" "j1" 0) 0 []
      = .ok ("a@x.com", ["j1"]) := by decide
  have main := redeem_twice_single_use "k" (signLoginToken "k" "a@x.com" "j1" 0) 0 1
    [] "a@x.com" ["j1"] h
  exact ⟨h, main.1, main.2.1, main.2.2.2.1, main.2.2.2.2.2.1,
    main.2.2.2.2.2.2 _ []⟩

/-- Claim C5: for a valid subject email, issuing a login token and immediately
verifying the resulting signed string (with its fresh id not yet in the ledger)
succeeds and returns the same subject. -/
theorem issue_decode_roundtrip (secret email jti : String) (now : Nat)
    (used : List String) (hemail : emailRegexOk email = true) (hj : jti ∉ used) :
    verifyOnce secret (signLoginToken secret email jti now) now used
      = .ok (email, jti :: used) := by
  have h1 : jwtVerify secret (signLoginToken secret email jti now) now
      = .ok ⟨email, jti, now, now + tokenTtl⟩ := by
    unfold jwtVerify signLoginToken jwtSign
    simp [Nat.not_lt.mpr (Nat.le_add_right now tokenTtl)]
  unfold verifyOnce
  rw [h1]
  simp [signLoginToken, jwtSign, hj]

/-- Witness for C5 at `a@x.com` with fresh id `j1` and empty ledger. -/
theorem issue_decode_roundtrip_witness :
    emailRegexOk "a@x.com" = true ∧ "j1" ∉ ([] : List String) ∧
    verifyOnce "k" (signLoginToken "k" "a@x.com" "j1" 7) 7 [] = .ok ("a@x.com", ["j1"]) := by
  refine ⟨by decide, by decide, ?_⟩
  exact issue_decode_roundtrip "k" "a@x.com" "j1" 7 [] (by decide) (by decide)

/-- Claim C6: decoding an issued login token fails with `Expired` exactly when the
current time exceeds `expiresAt = issuedAt + tokenTtl` (default 900 s): at or
before that moment it never reports expiry. -/
theorem decode_expired_iff (secret sub jti : String) (t0 now : Nat) :
    jwtVerify secret (signLoginToken secret sub jti t0) now = .error .expired
      ↔ now > t0 + tokenTtl := by
  unfold jwtVerify signLoginToken jwtSign
  by_cases h : now > t0 + tokenTtl
  · simp [h]
  · simp [h]

/-- Claim C7: any two failing redemption attempts at the callback — tampered
signature, expiry, or replay of a used id — produce identical user-visible
responses: status 400, body "Invalid or expired token", no cookie set. -/
theorem callback_failures_indistinguishable (secret : String) (t1 t2 : SignedToken)
    (n1 n2 : Nat) (u1 u2 : List String) (e1 e2 : AuthError)
    (h1 : verifyOnce secret t1 n1 u1 = .error e1)
    (h2 : verifyOnce secret t2 n2 u2 = .error e2) :
    (callback secret (some t1) n1 u1).status = (callback secret (some t2) n2 u2).status ∧
    (callback secret (some t1) n1 u1).body = (callback secret (some t2) n2 u2).body ∧
    (callback secret (some t1) n1 u1).status = 400 ∧
    (callback secret (some t1) n1 u1).body = "Invalid or expired token" ∧
    (callback secret (some t1) n1 u1).authCookie = none ∧
    (callback secret (some t2) n2 u2).authCookie = none := by
  rw [callback_of_error h1, callback_of_error h2]
  exact ⟨rfl, rfl, rfl, rfl, rfl, rfl⟩

/-- Witness for C7: a signature-tampered token and a replayed token fail with the
very same response. -/
theorem callback_failures_indistinguishable_witness :
    verifyOnce "k" ⟨⟨"a@x.com", "j1", 0, 900⟩, "garbage"⟩ 0 []
      = .error .invalidSignature ∧
    verifyOnce "k" (signLoginToken "k" "b@x.com" "j2" 0) 0 ["j2"] = .error .alreadyUsed ∧
    (callback "k" (some ⟨⟨"a@x.com", "j1", 0, 900⟩, "garbage"⟩) 0 []).status
      = (callback "k" (some (signLoginToken "k" "b@x.com" "j2" 0)) 0 ["j2"]).status ∧
    (callback "k" (some ⟨⟨"a@x.com", "j1", 0, 900⟩, "garbage"⟩) 0 []).body
      = (callback "k" (some (signLoginToken "k" "b@x.com" "j2" 0)) 0 ["j2"]).body ∧
    (callback "k" (some ⟨⟨"a@x.com", "j1", 0, 900⟩, "garbage"⟩) 0 []).status = 400 ∧
    (callback "k" (some ⟨⟨"a@x.com", "j1", 0, 900⟩, "garbage"⟩) 0 []).body
      = "Invalid or expired token" := by
  have h1 : verifyOnce "k" ⟨⟨"a@x.com", "j1", 0, 900⟩, "garbage"⟩ 0 []
      = .error .invalidSignature := by decide
  have h2 : verifyOnce "k" (signLoginToken "k" "b@x.com" "j2" 0) 0 ["j2"]
      = .error .alreadyUsed := by decide
  have main := callback_failures_indistinguishable "k"
    ⟨⟨"a@x.com", "j1", 0, 900⟩, "garbage"⟩ (signLoginToken "k" "b@x.com" "j2" 0)
    0 0 [] ["j2"] .invalidSignature .alreadyUsed h1 h2
  exact ⟨h1, h2, main.1, main.2.1, main.2.2.1, main.2.2.2.1⟩

/-- Claim C2 (code evaluation at the failing input): the session credential set by
the callback is the bare subject string with no signature, and `requireAuth`
accepts an arbitrary forged cookie value — a string never produced by any
redemption — as an authenticated subject, while rejecting only absent or empty
cookies.  This contradicts the claimed integrity protection. -/
theorem forged_cookie_accepted :
    requireAuth (some "mallory@evil.example") = .ok "mallory@evil.example" ∧
    (callback "secret0" (some (signLoginToken "secret0" "victim@x.com" "j1" 0)) 0
      []).authCookie = some "victim@x.com" ∧
    requireAuth none = .error 401 ∧
    requireAuth (some "") = .error 401 := by
  refine ⟨rfl, ?_, rfl, rfl⟩
  decide

/-- Claim C3 (code evaluation at the failing input): the upload handler embeds the
client-supplied file name verbatim, so an authenticated `alice` uploading a file
named `/../../bob/evil` gets a stored path whose lexical resolution is
`uploads/bob/evil` — inside `bob`'s namespace, not under `alice`'s prefix. -/
theorem upload_path_escapes_namespace :
    upload "alice" (some "/../../bob/evil") 123
      = ⟨200, some "uploads/alice/123-/../../bob/evil"⟩ ∧
    normalizePath "uploads/alice/123-/../../bob/evil" = "uploads/bob/evil" ∧
    strStartsWith (normalizePath "uploads/alice/123-/../../bob/evil")
      (userNamespace "alice") = false ∧
    strStartsWith (normalizePath "uploads/alice/123-/../../bob/evil")
      (userNamespace "bob") = true := by
  decide

/-- Claim C4 counterexample: for authenticated subject `alice`, the path
`uploads/bob/../secret` — not under `alice`'s namespace — is answered with
404 "File not found", not 403, by both download and delete, because
`sanitizePath` throws on `..` and the throw is caught as 404. -/
theorem cross_namespace_dotdot_is_404 :
    strStartsWith "uploads/bob/../secret" (userNamespace "alice") = false ∧
    download "alice" (some "uploads/bob/../secret") (fun _ => none)
      = ⟨404, "File not found"⟩ ∧
    deleteFile "alice" (some "uploads/bob/../secret") (fun _ => none)
      = ⟨404, "File not found"⟩ := by
  decide

/-- Claim C4 as amended: a download or delete request by subject `user` for a path
that passes sanitization (non-empty, no `..`) and, after stripping leading
slashes, does not lie under the caller's namespace prefix is answered with
403 "Forbidden"; paths that fail sanitization are answered 404 instead. -/
theorem cross_namespace_forbidden (user p : String) (storage : String → Option String)
    (h0 : p.toList.isEmpty = false) (h1 : hasDD p.toList = false)
    (h2 : strStartsWith (String.mk (p.toList.dropWhile (· = '/')))
      (userNamespace user) = false) :
    download user (some p) storage = ⟨403, "Forbidden"⟩ ∧
    deleteFile user (some p) storage = ⟨403, "Forbidden"⟩ := by
  have h0' : ¬ p.data = [] := by
    intro hnil
    simp [String.toList, hnil] at h0
  have h1' : hasDD p.data = false := h1
  have h2' : strStartsWith (String.mk (List.dropWhile (fun x => decide (x = '/')) p.data))
      (userNamespace user) = false := h2
  have hsan : sanitizePath (some p)
      = .ok (String.mk (p.toList.dropWhile (· = '/'))) := by
    simp [sanitizePath, h0', h1']
  constructor
  · simp [download, hsan, h2']
  · simp [deleteFile, hsan, h2']

/-- Witness for the amended C4: `alice` requesting `uploads/bob/secret` gets 403
from both download and delete. -/
theorem cross_namespace_forbidden_witness :
    ("uploads/bob/secret".toList.isEmpty = false) ∧
    (hasDD "uploads/bob/secret".toList = false) ∧
    download "alice" (some "uploads/bob/secret") (fun _ => none) = ⟨403, "Forbidden"⟩ ∧
    deleteFile "alice" (some "uploads/bob/secret") (fun _ => none) = ⟨403, "Forbidden"⟩ := by
  have main := cross_namespace_forbidden "alice" "uploads/bob/secret" (fun _ => none)
    (by decide) (by decide) (by decide)
  exact ⟨by decide, by decide, main.1, main.2⟩

/-- Claim C8: an email failing the syntactic check (or an absent body) makes
`/api/request-access` answer 400 with no mail-delivery call attempted. -/
theorem invalid_email_no_mail (secret email jti : String) (now : Nat) (mailOk : Bool)
    (h : emailRegexOk email = false) :
    requestAccess secret (some email) jti now mailOk = ⟨400, []⟩ ∧
    requestAccess secret none jti now mailOk = ⟨400, []⟩ := by
  constructor
  · simp [requestAccess, h]
  · rfl

/-- Witness for C8 at the malformed address, whitespace included. -/
theorem invalid_email_no_mail_witness :
    emailRegexOk "not an email" = false ∧
    requestAccess "k" (some "not an email") "j1" 0 true = ⟨400, []⟩ ∧
    requestAccess "k" none "j1" 0 true = ⟨400, []⟩ := by
  have main := invalid_email_no_mail "k" "not an email" "j1" 0 true (by decide)
  exact ⟨by decide, main.1, main.2⟩

/-- Claim C9: the redemption ledger is mutated only at a first successful
redemption — issuing a link leaves it untouched (so every previously redeemable
token stays redeemable, with the same result), a redemption attempt that sets no
session cookie leaves it unchanged, and a successful redemption inserts exactly
the redeemed token's id, which was absent before. -/
theorem ledger_frame (secret : String) (used : List String) (body : Option String)
    (jti : String) (n1 : Nat) (mailOk : Bool) (tok? : Option SignedToken) (n2 : Nat) :
    sysStep secret used (.issue body jti n1 mailOk) = used ∧
    ((callback secret tok? n2 used).authCookie = none →
      sysStep secret used (.redeem tok? n2) = used) ∧
    (∀ t sub u', tok? = some t → verifyOnce secret t n2 used = .ok (sub, u') →
      sysStep secret used (.redeem tok? n2) = t.payload.jti :: used ∧
        t.payload.jti ∉ used) ∧
    (∀ t3 n3 sub3 u3, verifyOnce secret t3 n3 used = .ok (sub3, u3) →
      verifyOnce secret t3 n3 (sysStep secret used (.issue body jti n1 mailOk))
        = .ok (sub3, u3)) := by
  refine ⟨rfl, ?_, ?_, ?_⟩
  · intro hfail
    show (callback secret tok? n2 used).usedJtis = used
    match tok? with
    | none => rfl
    | some t =>
      cases hv : verifyOnce secret t n2 used with
      | error e => rw [callback_of_error hv]
      | ok r =>
        obtain ⟨s, u'⟩ := r
        rw [callback_of_ok hv] at hfail
        simp at hfail
  · intro t sub u' htok hv
    subst htok
    obtain ⟨_, _, hj, _, hu'⟩ := verifyOnce_ok_elim hv
    constructor
    · show (callback secret (some t) n2 used).usedJtis = t.payload.jti :: used
      rw [callback_of_ok hv, hu']
    · exact hj
  · intro t3 n3 sub3 u3 hv
    exact hv

/-- Witness for C9: issuing leaves the ledger `["j9"]` untouched and keeps a prior
token redeemable; a tampered-token redemption leaves it unchanged; a successful
redemption inserts exactly the fresh id `j1`. -/
theorem ledger_frame_witness :
    sysStep "k" ["j9"] (.issue (some "a@x.com") "j2" 0 true) = ["j9"] ∧
    sysStep "k" ["j9"] (.redeem (some ⟨⟨"a@x.com", "j1", 0, 900⟩, "garbage"⟩) 0)
      = ["j9"] ∧
    sysStep "k" ["j9"] (.redeem (some (signLoginToken "k" "a@x.com" "j1" 0)) 0)
      = ["j1", "j9"] ∧
    verifyOnce "k" (signLoginToken "k" "a@x.com" "j1" 0) 0
      (sysStep "k" ["j9"] (.issue (some "a@x.com") "j2" 0 true))
      = .ok ("a@x.com", ["j1", "j9"]) := by
  have main := ledger_frame "k" ["j9"] (some "a@x.com") "j2" 0 true
    (some ⟨⟨"a@x.com", "j1", 0, 900⟩, "garbage"⟩) 0
  have main2 := ledger_frame "k" ["j9"] (some "a@x.com") "j2" 0 true
    (some (signLoginToken "k" "a@x.com" "j1" 0)) 0
  refine ⟨main.1, main.2.1 (by decide), ?_, ?_⟩
  · exact (main2.2.2.1 (signLoginToken "k" "a@x.com" "j1" 0) "a@x.com" ["j1", "j9"]
      rfl (by decide)).1
  · exact main2.2.2.2 (signLoginToken "k" "a@x.com" "j1" 0) 0 "a@x.com" ["j1", "j9"]
      (by decide)

/-- Claim C10: uploading a file whose client-supplied name contains `..` succeeds
(200) and returns the stored path, but every later download or delete of that
very path is answered 404 "File not found", since `sanitizePath` throws on `..`
and the throw is caught as 404 — the file is unreachable through the API. -/
theorem dotdot_upload_unretrievable (user name : String) (ts : Nat)
    (storage : String → Option String) (h : hasDD name.toList = true) :
    (upload user (some name) ts).status = 200 ∧
    (upload user (some name) ts).storedPath = some (uploadPath user name ts) ∧
    download user (some (uploadPath user name ts)) storage = ⟨404, "File not found"⟩ ∧
    deleteFile user (some (uploadPath user name ts)) storage = ⟨404, "File not found"⟩ := by
  have hpath : (uploadPath user name ts).toList
      = ("uploads/" ++ encodeURIComponent user ++ "/" ++ toString ts ++ "-").toList
        ++ name.toList := by
    unfold uploadPath
    rw [← toList_append]
  have hdd : hasDD (uploadPath user name ts).toList = true := by
    rw [hpath]
    exact hasDD_append _ h
  have hsan : sanitizePath (some (uploadPath user name ts)) = .error "Invalid path" := by
    simp only [sanitizePath, hdd, Bool.or_true, if_pos]
  refine ⟨rfl, rfl, ?_, ?_⟩
  · simp [download, hsan]
  · simp [deleteFile, hsan]

/-- Witness for C10: `u` uploads a file named `../x`; the stored path
`uploads/u/1-../x` is returned, yet downloading or deleting it yields 404. -/
theorem dotdot_upload_unretrievable_witness :
    hasDD "../x".toList = true ∧
    upload "u" (some "../x") 1 = ⟨200, some "uploads/u/1-../x"⟩ ∧
    download "u" (some "uploads/u/1-../x") (fun _ => none) = ⟨404, "File not found"⟩ ∧
    deleteFile "u" (some "uploads/u/1-../x") (fun _ => none) = ⟨404, "File not found"⟩ := by
  have main := dotdot_upload_unretrievable "u" "../x" 1 (fun _ => none) (by decide)
  refine ⟨by decide, ?_, ?_, ?_⟩
  · exact by decide
  · have h3 := main.2.2.1
    simpa using h3
  · have h4 := main.2.2.2
    simpa using h4

end SecureFileload
